import Mathlib

/-!
Verification development for `scripts/extract-definitions.py` of HoloLSP.

The Python program extracts `ScriptConstant` / `ScriptFunction` constructor
calls from the AST of a `scriptdefs.py` source file and emits TypeScript
definitions.  We shallowly embed the relevant AST node shapes, the literal
values Python constants can carry, and translate each Python function into a
Lean function of the same name.  Python exceptions (the `AttributeError`
raised when a category-inference helper is applied to a non-string value)
are modelled with `Except String`.
-/

/-- Values carried by a Python `ast.Constant` node (the shapes the extractor
can meet: `None`, booleans, integers, strings). -/
inductive PyVal where
| none : PyVal
| bool (b : Bool) : PyVal
| int (z : Int) : PyVal
| str (s : String) : PyVal
deriving DecidableEq, Repr

deriving instance DecidableEq for Except

/-- Python truthiness of a `PyVal` (`None` and `0`, `False`, `""` are falsy). -/
def pyTruthy : PyVal → Bool
| .none => false
| .bool b => b
| .int z => z ≠ 0
| .str s => s ≠ ""

/-- Python `str(v)` on the values we model. -/
def pyStr : PyVal → String
| .none => "None"
| .bool true => "True"
| .bool false => "False"
| .int z => toString z
| .str s => s

/-- One step of Python `str.title()`: a letter following a non-letter is
uppercased, a letter following a letter is lowercased. -/
def pyTitleAux : Bool → List Char → List Char
| _, [] => []
| prevAlpha, c :: cs =>
  (if c.isAlpha then (if prevAlpha then c.toLower else c.toUpper) else c)
    :: pyTitleAux c.isAlpha cs

/-- Python `s.title()` restricted to the ASCII alphabet. -/
def pyTitle (s : String) : String := ⟨pyTitleAux false s.data⟩

/-- Python `s.lower()` restricted to the ASCII alphabet. -/
def strLower (s : String) : String := ⟨s.data.map Char.toLower⟩

/-- Python `s.startswith(pat)`. -/
def strStartsWith (s pat : String) : Bool := List.isPrefixOf pat.data s.data

/-- Python `s.endswith(pat)`. -/
def strEndsWith (s pat : String) : Bool :=
  List.isPrefixOf pat.data.reverse s.data.reverse

/-- Splitting on a one-character separator, accumulating the current piece
in reverse. -/
def splitOnCharAux (sep : Char) (acc : List Char) : List Char → List String
| [] => [⟨acc.reverse⟩]
| c :: cs =>
  if c = sep then ⟨acc.reverse⟩ :: splitOnCharAux sep [] cs
  else splitOnCharAux sep (c :: acc) cs

/-- Python `s.split(sep)` for a one-character separator (the only form the
source uses). -/
def strSplitChar (s : String) (sep : Char) : List String :=
  splitOnCharAux sep [] s.data

/-- Splitting on a character predicate, keeping empty pieces. -/
def splitPredAux (p : Char → Bool) (acc : List Char) : List Char → List String
| [] => [⟨acc.reverse⟩]
| c :: cs =>
  if p c then ⟨acc.reverse⟩ :: splitPredAux p [] cs
  else splitPredAux p (c :: acc) cs

/-- Fuel-indexed core of Python `s.replace(pat, repl)`: non-overlapping,
left to right.  One fuel unit is spent per step; a match consumes the whole
pattern, so `l.length` fuel always suffices for a non-empty pattern (every
pattern the source passes is non-empty). -/
def listReplaceAux (pat repl : List Char) : Nat → List Char → List Char
| 0, l => l
| fuel + 1, l =>
  match l with
  | [] => []
  | c :: cs =>
    if List.isPrefixOf pat l then repl ++ listReplaceAux pat repl fuel (List.drop pat.length l)
    else c :: listReplaceAux pat repl fuel cs

/-- Python `s.replace(pat, repl)` for non-empty `pat`. -/
def strReplace (s pat repl : String) : String :=
  ⟨listReplaceAux pat.data repl.data s.data.length s.data⟩

/-- Boolean infix test on character lists. -/
def listIsInfixOf (pat : List Char) : List Char → Bool
| [] => pat.isEmpty
| c :: rest => List.isPrefixOf pat (c :: rest) || listIsInfixOf pat rest

/-- Python `pat in s` substring containment. -/
def strContains (s pat : String) : Bool := listIsInfixOf pat.data s.data

/-- Python `any(keyword in n for keyword in kws)`. -/
def anyKw (n : String) (kws : List String) : Bool := kws.any (fun k => strContains n k)

/-- The whitespace characters recognized by Python `str.split()` with no
separator argument. -/
def pyIsSpace (c : Char) : Bool :=
  c = ' ' || c = '\t' || c = '\n' || c = '\r' || c = '\x0b' || c = '\x0c'

/-- Python `s.split()`: split on whitespace runs, dropping empty pieces. -/
def pySplitWS (s : String) : List String :=
  (splitPredAux pyIsSpace [] s.data).filter (fun t => t ≠ "")

/-- Description clean-up of `extract_script_function`: replace the literal
escape sequence `\r\n` and actual CRLF by spaces, then collapse whitespace
runs (`' '.join(description.split())`). -/
def normalizeDesc (s : String) : String :=
  String.intercalate " " (pySplitWS (strReplace (strReplace s "\\r\\n" " ") "\r\n" " "))

/-- The Python expression nodes consumed by the extractor.  `other` stands
for every expression shape the extractor does not inspect further. -/
inductive Expr where
| constant (v : PyVal) : Expr
| name (id : String) : Expr
| attribute (value : Expr) (attr : String) : Expr
| call (func : Expr) (args : List Expr) : Expr
| list (elts : List Expr) : Expr
| other : Expr

/-- The statement nodes consumed by the extractor: assignments (with their
target list) and everything else. -/
inductive Stmt where
| assign (targets : List Expr) (value : Expr) : Stmt
| other : Stmt

/-- `infer_category_from_name` of the Python source: category of a constant
name. -/
def infer_category_from_name (name : String) : String :=
  if name = "TRUE" || name = "FALSE" then "Basic"
  else if name = "PI" then "Math"
  else
    let parts := strSplitChar name '_'
    if parts.length > 1 then
      let prefix0 := parts.headD ""
      let prefix1 :=
        if parts.length > 2 && ["TYPE", "SLOT", "BONUS"].contains (parts.getD 1 "")
        then prefix0 ++ "_" ++ parts.getD 1 ""
        else prefix0
      let category := pyTitle (strReplace prefix1 "_" " ")
      if strEndsWith category "s" && category.length > 1
      then category.dropRight 1
      else category
    else "Other"

/-- `infer_category_from_function_name` of the Python source: category of a
function name, as an ordered `if`/`elif` chain over the lower-cased name. -/
def infer_category_from_function_name (name : String) : String :=
  let n := strLower name
  if strStartsWith n "get" || strStartsWith n "set" || strStartsWith n "is" || strStartsWith n "has" then
    if anyKw n ["pc", "player", "character", "object", "creature"] then "Object"
    else if anyKw n ["party", "npc", "available"] then "Party"
    else if anyKw n ["item", "inventory", "equipped"] then "Item"
    else if anyKw n ["area", "location", "position", "facing"] then "Location"
    else if anyKw n ["ability", "skill", "level", "class"] then "Character"
    else if anyKw n ["global", "local"] then "Variable"
    else if anyKw n ["time", "day", "hour", "module"] then "Game State"
    else "General"
  else if strStartsWith n "action" then "Action"
  else if strStartsWith n "effect" || strContains n "effect" then "Effect"
  else if anyKw n ["damage", "attack", "combat", "weapon", "armor"] then "Combat"
  else if anyKw n ["speak", "conversation", "dialog"] then "Dialog"
  else if anyKw n ["play", "sound", "music", "visual", "camera"] then "Audio/Visual"
  else if anyKw n ["move", "jump", "teleport", "walk"] then "Movement"
  else if anyKw n ["execute", "script", "event", "signal"] then "Script"
  else if anyKw n ["random", "float", "int", "vector", "distance"] then "Math"
  else if anyKw n ["store", "save", "load"] then "Save/Load"
  else if anyKw n ["force", "power"] then "Force"
  else "General"

/-- The shared name/category description table of `generate_description`. -/
def descriptions : List (String × String) :=
  [("TRUE", "Boolean true value"),
   ("FALSE", "Boolean false value"),
   ("PI", "Mathematical constant π"),
   ("Planet", "Planet identifier constant"),
   ("Damage", "Damage type constant"),
   ("Damage Type", "Damage type constant"),
   ("Ability", "Ability score constant"),
   ("Skill", "Skill identifier constant"),
   ("Feat", "Feat identifier constant"),
   ("Animation", "Animation constant"),
   ("Base Item", "Base item type constant"),
   ("Inventory", "Inventory slot constant"),
   ("Inventory Slot", "Inventory slot constant"),
   ("Object Type", "Object type constant"),
   ("Race", "Racial type constant"),
   ("Gender", "Gender constant"),
   ("Saving Throw", "Saving throw constant"),
   ("Alignment", "Alignment constant"),
   ("Duration", "Duration type constant"),
   ("Direction", "Direction constant in degrees"),
   ("Force Power", "Force power identifier"),
   ("Vfx", "Visual effect constant"),
   ("Item Property", "Item property constant"),
   ("Combat", "Combat-related constant"),
   ("Npc", "NPC identifier constant"),
   ("Party", "Party management constant"),
   ("Camera", "Camera mode constant"),
   ("Difficulty", "Game difficulty constant"),
   ("Encounter", "Encounter constant"),
   ("Trap", "Trap type constant"),
   ("Creature", "Creature size constant"),
   ("Effect", "Effect type constant"),
   ("Conversation", "Conversation type constant"),
   ("Disguise", "Disguise type constant"),
   ("Immunity", "Immunity type constant"),
   ("Aoe", "Area of effect constant"),
   ("Polymorph", "Polymorph type constant"),
   ("Communication", "Communication volume constant"),
   ("Attitude", "Attitude constant")]

/-- `generate_description` of the Python source: look the name up in the
shared table, then the category, then fall back. -/
def generate_description (name category fallback : String) : String :=
  match descriptions.lookup name with
  | some d => d
  | Option.none =>
    match descriptions.lookup category with
    | some d => d
    | Option.none => fallback

/-- An extracted constant record (`extract_script_constant` result). -/
structure ConstantRecord where
  type : String
  name : String
  value : PyVal
  category : String
deriving DecidableEq, Repr

/-- An extracted parameter record.  The name keeps its Python value: the
extractor never forces it to be a string. -/
structure ParameterRecord where
  type : String
  name : PyVal
  defaultValue : Option String
deriving DecidableEq, Repr

/-- An extracted function record (`extract_script_function` result). -/
structure FunctionRecord where
  returnType : String
  name : String
  parameters : List ParameterRecord
  description : String
  category : String
deriving DecidableEq, Repr

/-- The accumulated `definitions` dictionary of
`extract_definitions_from_file`. -/
structure Definitions where
  kotor_constants : List ConstantRecord
  tsl_constants : List ConstantRecord
  kotor_functions : List FunctionRecord
  tsl_functions : List FunctionRecord
deriving DecidableEq, Repr

/-- The empty `definitions` dictionary. -/
def Definitions.empty : Definitions := ⟨[], [], [], []⟩

/-- The `DataType.X` attribute-access recognizer shared by all three shape
checks: its lower-cased attribute, or Python `None`. -/
def dataTypeTag (e : Option Expr) : PyVal :=
  match e with
  | some (.attribute (.name "DataType") attr) => .str (strLower attr)
  | _ => .none

/-- The literal-argument recognizer: the constant value, or Python `None`
when the argument is missing or not an `ast.Constant`.  (Python cannot tell
"unset" from "the literal `None`", so both map to `PyVal.none`.) -/
def constantArg (e : Option Expr) : PyVal :=
  match e with
  | some (.constant v) => v
  | _ => .none

/-- The nested parameter recognizer of `extract_script_function`
(the `ScriptParam` shape, lines 78-109 of the source). -/
def extract_param (e : Expr) : Option ParameterRecord :=
  match e with
  | .call (.name "ScriptParam") args =>
    if args.length ≥ 2 then
      let param_type := dataTypeTag (args.get? 0)
      let param_name := constantArg (args.get? 1)
      let default_value : Option String :=
        match args.get? 2 with
        | some (.constant PyVal.none) => Option.none
        | some (.constant v) => some (pyStr v)
        | _ => Option.none
      if pyTruthy param_type && pyTruthy param_name then
        match param_type with
        | .str t =>
          some { type := t, name := param_name,
                 defaultValue :=
                   match default_value with
                   | some dv => if dv ≠ "" then some dv else Option.none
                   | Option.none => Option.none }
        | _ => Option.none
      else Option.none
    else Option.none
  | _ => Option.none

/-- `extract_script_constant` of the Python source.  When the name argument
is a truthy non-string literal, `infer_category_from_name` raises an
`AttributeError` (only strings have `.split`), modelled as `.error`. -/
def extract_script_constant (e : Expr) : Except String (Option ConstantRecord) :=
  match e with
  | .call (.name "ScriptConstant") args =>
    if args.length ≥ 3 then
      let data_type := dataTypeTag (args.get? 0)
      let nameV := constantArg (args.get? 1)
      let valueV : PyVal :=
        match args.get? 2 with
        | some (.constant v) => v
        | some (.attribute (.name "math") "pi") => .str "Math.PI"
        | _ => .none
      if pyTruthy data_type && pyTruthy nameV && valueV ≠ PyVal.none then
        match data_type, nameV with
        | .str t, .str s =>
          .ok (some { type := t, name := s, value := valueV,
                      category := infer_category_from_name s })
        | _, _ => .error "AttributeError"
      else .ok Option.none
    else .ok Option.none
  | _ => .ok Option.none

/-- `extract_script_function` of the Python source.  A truthy non-string
name makes `infer_category_from_function_name` raise (only strings have
`.lower`), modelled as `.error`. -/
def extract_script_function (e : Expr) : Except String (Option FunctionRecord) :=
  match e with
  | .call (.name "ScriptFunction") args =>
    if args.length ≥ 3 then
      let return_type := dataTypeTag (args.get? 0)
      let nameV := constantArg (args.get? 1)
      let parameters : List ParameterRecord :=
        match args.get? 2 with
        | some (.list elts) => elts.filterMap extract_param
        | _ => []
      let fallbackDesc := if pyTruthy nameV then pyStr nameV ++ " function" else "function"
      let description : String :=
        match args.get? 3 with
        | some (.constant (.str desc_text)) =>
          if desc_text.length > 10 then normalizeDesc desc_text else fallbackDesc
        | _ => fallbackDesc
      if pyTruthy return_type && pyTruthy nameV then
        match return_type, nameV with
        | .str rt, .str s =>
          .ok (some { returnType := rt, name := s, parameters := parameters,
                      description := description,
                      category := infer_category_from_function_name s })
        | _, _ => .error "AttributeError"
      else .ok Option.none
    else .ok Option.none
  | _ => .ok Option.none

/-- The per-element constant loop of `extract_definitions_from_file`:
extract each element, keep the matches, propagate a raised exception. -/
def extractConstList : List Expr → Except String (List ConstantRecord)
| [] => .ok []
| e :: es => do
  let c ← extract_script_constant e
  let rest ← extractConstList es
  match c with
  | some r => .ok (r :: rest)
  | Option.none => .ok rest

/-- The per-element function loop of `extract_definitions_from_file`. -/
def extractFuncList : List Expr → Except String (List FunctionRecord)
| [] => .ok []
| e :: es => do
  let f ← extract_script_function e
  let rest ← extractFuncList es
  match f with
  | some r => .ok (r :: rest)
  | Option.none => .ok rest

/-- The four recognized binding names. -/
def target_vars : List String :=
  ["KOTOR_CONSTANTS", "TSL_CONSTANTS", "KOTOR_FUNCTIONS", "TSL_FUNCTIONS"]

/-- Append freshly extracted constants to the group named `id`. -/
def Definitions.addConstants (d : Definitions) (id : String) (recs : List ConstantRecord) : Definitions :=
  if id = "KOTOR_CONSTANTS" then { d with kotor_constants := d.kotor_constants ++ recs }
  else if id = "TSL_CONSTANTS" then { d with tsl_constants := d.tsl_constants ++ recs }
  else d

/-- Append freshly extracted functions to the group named `id`. -/
def Definitions.addFunctions (d : Definitions) (id : String) (recs : List FunctionRecord) : Definitions :=
  if id = "KOTOR_FUNCTIONS" then { d with kotor_functions := d.kotor_functions ++ recs }
  else if id = "TSL_FUNCTIONS" then { d with tsl_functions := d.tsl_functions ++ recs }
  else d

/-- Processing of one walked statement (lines 287-303 of the source): a
single-target `Name` assignment bound to one of the four recognized names,
whose value is a list literal, has its elements extracted and appended. -/
def processStmt (d : Definitions) (s : Stmt) : Except String Definitions :=
  match s with
  | .assign [.name id] value =>
    if target_vars.contains id then
      match value with
      | .list elts =>
        if strContains id "CONSTANTS" then do
          let recs ← extractConstList elts
          return d.addConstants id recs
        else if strContains id "FUNCTIONS" then do
          let recs ← extractFuncList elts
          return d.addFunctions id recs
        else return d
      | _ => return d
    else return d
  | _ => return d

/-- `extract_definitions_from_file` of the Python source, applied to the
already-parsed module (the statements `ast.walk` yields, in order). -/
def extract_definitions_from_file (m : List Stmt) : Except String Definitions :=
  m.foldlM processStmt Definitions.empty

/-- The fixed TypeScript preamble of `generate_typescript_definitions`
(the triple-quoted template starting the emitted file, verbatim). -/
def TS_HEADER : String := "// Generated from PyKotor scriptdefs.py\n// Do not edit manually - this file is auto-generated\n\nexport interface NWScriptConstant \x7b\n  name: string;\n  type: string;\n  value: number | string;\n  description: string;\n  category: string;\n\x7d\n\nexport interface NWScriptParameter \x7b\n  name: string;\n  type: string;\n  description?: string;\n  defaultValue?: string;\n\x7d\n\nexport interface NWScriptFunction \x7b\n  name: string;\n  returnType: string;\n  parameters: NWScriptParameter[];\n  description: string;\n  category: string;\n\x7d\n\nexport interface NWScriptType \x7b\n  name: string;\n  description?: string;\n  size?: number;\n\x7d\n\n// KOTOR Data Types\nexport const KOTOR_TYPES: NWScriptType[] = [\n  \x7b name: \"void\", description: \"No return value\", size: 0 \x7d,\n  \x7b name: \"int\", description: \"32-bit signed integer\", size: 4 \x7d,\n  \x7b name: \"float\", description: \"32-bit floating point number\", size: 4 \x7d,\n  \x7b name: \"string\", description: \"Text string\", size: 4 \x7d,\n  \x7b name: \"object\", description: \"Game object reference\", size: 4 \x7d,\n  \x7b name: \"vector\", description: \"3D vector with x, y, z components\", size: 12 \x7d,\n  \x7b name: \"location\", description: \"Position and orientation in an area\", size: 4 \x7d,\n  \x7b name: \"event\", description: \"Game event\", size: 4 \x7d,\n  \x7b name: \"effect\", description: \"Game effect\", size: 4 \x7d,\n  \x7b name: \"itemproperty\", description: \"Item property\", size: 4 \x7d,\n  \x7b name: \"talent\", description: \"Character talent/feat\", size: 4 \x7d,\n  \x7b name: \"action\", description: \"Character action\", size: 4 \x7d,\n];\n\n// Keywords for syntax highlighting and completion\nexport const KOTOR_KEYWORDS = [\n  \x27if\x27, \x27else\x27, \x27while\x27, \x27for\x27, \x27do\x27, \x27switch\x27, \x27case\x27, \x27default\x27, \x27break\x27,\n  \x27continue\x27, \x27return\x27, \x27struct\x27, \x27const\x27, \x27#include\x27\n];\n\n// Control Keywords (from compiler)\nexport const CONTROL_KEYWORDS = [\n  \x27break\x27, \x27case\x27, \x27default\x27, \x27do\x27, \x27else\x27, \x27switch\x27, \x27while\x27, \x27for\x27, \x27if\x27, \x27return\x27\n];\n\n// Operators (from compiler)\nexport const OPERATORS = [\n  \x27+\x27, \x27-\x27, \x27*\x27, \x27/\x27, \x27%\x27, \x27!\x27, \x27==\x27, \x27!=\x27, \x27>\x27, \x27<\x27, \x27>=\x27, \x27<=\x27,\n  \x27&&\x27, \x27||\x27, \x27&\x27, \x27|\x27, \x27^\x27, \x27<<\x27, \x27>>\x27, \x27~\x27, \x27++\x27, \x27--\x27,\n  \x27+=\x27, \x27-=\x27, \x27*=\x27, \x27/=\x27\n];\n\n// Data Type Enums (from PyKotor compiler)\nexport enum DataTypeEnum \x7b\n  VOID = \x27void\x27,\n  INT = \x27int\x27,\n  FLOAT = \x27float\x27,\n  STRING = \x27string\x27,\n  OBJECT = \x27object\x27,\n  VECTOR = \x27vector\x27,\n  LOCATION = \x27location\x27,\n  EVENT = \x27event\x27,\n  EFFECT = \x27effect\x27,\n  ITEMPROPERTY = \x27itemproperty\x27,\n  TALENT = \x27talent\x27,\n  ACTION = \x27action\x27,\n  STRUCT = \x27struct\x27\n\x7d\n\n// Geometry Support (from PyKotor geometry)\nexport interface Vector2 \x7b\n  x: number;\n  y: number;\n\x7d\n\nexport interface Vector3 \x7b\n  x: number;\n  y: number;\n  z: number;\n\x7d\n\nexport interface Vector4 \x7b\n  x: number;\n  y: number;\n  z: number;\n  w: number;\n\x7d\n\nexport interface AxisAngle \x7b\n  axis: Vector3;\n  angle: number;\n\x7d\n\n// Surface Material Types (from PyKotor geometry)\nexport enum SurfaceMaterial \x7b\n  UNDEFINED = 0,\n  DIRT = 1,\n  OBSCURING = 2,\n  GRASS = 3,\n  STONE = 4,\n  WOOD = 5,\n  WATER = 6,\n  NON_WALK = 7,\n  TRANSPARENT = 8,\n  CARPET = 9,\n  METAL = 10,\n  PUDDLES = 11,\n  SWAMP = 12,\n  MUD = 13,\n  LEAVES = 14,\n  LAVA = 15,\n  BOTTOMLESS_PIT = 16,\n  DEEP_WATER = 17,\n  DOOR = 18,\n  NON_WALK_GRASS = 19,\n  TRIGGER = 30\n\x7d\n\n// Get all constants by category\nexport function getConstantsByCategory(category: string): NWScriptConstant[] \x7b\n  return KOTOR_CONSTANTS.filter(c => c.category === category);\n\x7d\n\n// Get all functions by category\nexport function getFunctionsByCategory(category: string): NWScriptFunction[] \x7b\n  return KOTOR_FUNCTIONS.filter(f => f.category === category);\n\x7d\n\n// Find constant by name\nexport function findConstant(name: string): NWScriptConstant | undefined \x7b\n  return KOTOR_CONSTANTS.find(c => c.name === name);\n\x7d\n\n// Find function by name\nexport function findFunction(name: string): NWScriptFunction | undefined \x7b\n  return KOTOR_FUNCTIONS.find(f => f.name === name);\n\x7d\n\n// Get all available categories\nexport function getConstantCategories(): string[] \x7b\n  return [...new Set(KOTOR_CONSTANTS.map(c => c.category).filter((category): category is string => Boolean(category)))];\n\x7d\n\nexport function getFunctionCategories(): string[] \x7b\n  return [...new Set(KOTOR_FUNCTIONS.map(f => f.category).filter((category): category is string => Boolean(category)))];\n\x7d\n\n// Utility functions for geometry types\nexport function createVector2(x: number, y: number): Vector2 \x7b\n  return \x7b x, y \x7d;\n\x7d\n\nexport function createVector3(x: number, y: number, z: number): Vector3 \x7b\n  return \x7b x, y, z \x7d;\n\x7d\n\nexport function createVector4(x: number, y: number, z: number, w: number): Vector4 \x7b\n  return \x7b x, y, z, w \x7d;\n\x7d\n\n// Check if surface material is walkable\nexport function isWalkableSurface(material: SurfaceMaterial): boolean \x7b\n  return [\n    SurfaceMaterial.DIRT,\n    SurfaceMaterial.GRASS,\n    SurfaceMaterial.STONE,\n    SurfaceMaterial.WOOD,\n    SurfaceMaterial.WATER,\n    SurfaceMaterial.CARPET,\n    SurfaceMaterial.METAL,\n    SurfaceMaterial.PUDDLES,\n    SurfaceMaterial.SWAMP,\n    SurfaceMaterial.MUD,\n    SurfaceMaterial.LEAVES,\n    SurfaceMaterial.DOOR,\n    SurfaceMaterial.TRIGGER\n  ].includes(material);\n\x7d\n\n// Get data type size (from PyKotor script.py)\nexport function getDataTypeSize(dataType: DataTypeEnum): number \x7b\n  switch (dataType) \x7b\n    case DataTypeEnum.VOID:\n      return 0;\n    case DataTypeEnum.VECTOR:\n      return 12;\n    case DataTypeEnum.STRUCT:\n      throw new Error(\x27Structs are variable size\x27);\n    default:\n      return 4;\n  \x7d\n\x7d\n\n// Additional utility functions for NWScript development\nexport function isValidDataType(type: string): boolean \x7b\n  return Object.values(DataTypeEnum).includes(type as DataTypeEnum);\n\x7d\n\nexport function getDataTypeDescription(type: string): string \x7b\n  const descriptions: Record<string, string> = \x7b\n    \x27void\x27: \x27No return value\x27,\n    \x27int\x27: \x2732-bit signed integer\x27,\n    \x27float\x27: \x2732-bit floating point number\x27,\n    \x27string\x27: \x27Text string\x27,\n    \x27object\x27: \x27Game object reference\x27,\n    \x27vector\x27: \x273D vector with x, y, z components\x27,\n    \x27location\x27: \x27Position and orientation in an area\x27,\n    \x27event\x27: \x27Game event\x27,\n    \x27effect\x27: \x27Game effect\x27,\n    \x27itemproperty\x27: \x27Item property\x27,\n    \x27talent\x27: \x27Character talent/feat\x27,\n    \x27action\x27: \x27Character action\x27,\n    \x27struct\x27: \x27Custom data structure\x27\n  \x7d;\n  return descriptions[type] || \x27Unknown data type\x27;\n\x7d\n\n"

/-- Rendering of a constant value (lines 550-552 of the source): strings
other than the symbolic token `Math.PI` are quoted, everything else is
interpolated with Python `str`. -/
def renderValue : PyVal → String
| .str s => if s = "Math.PI" then s else "\"" ++ s ++ "\""
| v => pyStr v

/-- Rendering of one parameter object literal (lines 571-574 of the
source); `defaultValue` is emitted only when present and truthy. -/
def renderParam (p : ParameterRecord) : String :=
  "\x7b name: \"" ++ pyStr p.name ++ "\", type: \"" ++ p.type ++ "\"" ++
  (match p.defaultValue with
   | some dv => if dv ≠ "" then ", defaultValue: \"" ++ dv ++ "\"" else ""
   | Option.none => "") ++ " \x7d"

/-- Rendering of one constant entry line (lines 549-554 of the source). -/
def renderConstant (fallback : String) (c : ConstantRecord) : String :=
  "  \x7b name: \"" ++ c.name ++ "\", type: \"" ++ c.type ++
  "\", value: " ++ renderValue c.value ++
  ", description: \"" ++ generate_description c.name c.category fallback ++
  "\", category: \"" ++ c.category ++ "\" \x7d"

/-- Description resolution at emission time (lines 567-569 of the source):
the extracted description wins when truthy and longer than the fallback, and
only then are its double quotes escaped. -/
def resolveFuncDesc (fallback : String) (f : FunctionRecord) : String :=
  let desc := generate_description f.name f.category fallback
  if f.description ≠ "" && f.description.length > fallback.length
  then strReplace f.description "\"" "\\\""
  else desc

/-- Rendering of one function entry line (lines 566-577 of the source). -/
def renderFunction (fallback : String) (f : FunctionRecord) : String :=
  "  \x7b name: \"" ++ f.name ++ "\", returnType: \"" ++ f.returnType ++
  "\", parameters: [" ++ String.intercalate ", " (f.parameters.map renderParam) ++
  "], description: \"" ++ resolveFuncDesc fallback f ++
  "\", category: \"" ++ f.category ++ "\" \x7d"

/-- The per-entry comma/newline layout of the emission loops: every entry
ends with a newline and all but the last get a trailing comma. -/
def joinEntries : List String → String
| [] => ""
| x :: xs => String.intercalate ",\n" (x :: xs) ++ "\n"

/-- The fallback description for a constants group (line 545). -/
def constFallback (n : String) : String :=
  if strContains n "KOTOR" then "kotor constant" else "tsl constant"

/-- The fallback description for a functions group (line 563). -/
def funcFallback (n : String) : String :=
  if strContains n "KOTOR" then "kotor function" else "tsl function"

/-- One emitted constants collection (lines 547-558 of the source). -/
def constSection (n : String) (recs : List ConstantRecord) : String :=
  "export const " ++ n ++ ": NWScriptConstant[] = [\n" ++
  joinEntries (recs.map (renderConstant (constFallback n))) ++ "];\n\n"

/-- One emitted functions collection (lines 565-581 of the source). -/
def funcSection (n : String) (recs : List FunctionRecord) : String :=
  "export const " ++ n ++ ": NWScriptFunction[] = [\n" ++
  joinEntries (recs.map (renderFunction (funcFallback n))) ++ "];\n\n"

/-- The part of the emitted text that depends on the extraction result: the
four collections, in the fixed order of the source loops. -/
def ts_body (d : Definitions) : String :=
  constSection "KOTOR_CONSTANTS" d.kotor_constants ++
  constSection "TSL_CONSTANTS" d.tsl_constants ++
  funcSection "KOTOR_FUNCTIONS" d.kotor_functions ++
  funcSection "TSL_FUNCTIONS" d.tsl_functions

/-- `generate_typescript_definitions` of the Python source. -/
def generate_typescript_definitions (d : Definitions) : String :=
  TS_HEADER ++ ts_body d

/-- The whole pipeline on an already-parsed module: extraction then
emission (the write to disk is external plumbing). -/
def run_pipeline (m : List Stmt) : Except String String :=
  (extract_definitions_from_file m).map generate_typescript_definitions

set_option maxRecDepth 8000

/-! ## Claim C1: the three worked categorizer examples -/

/-- C1 counterexample: the claimed example `category("FORCE_POWER_HEAL") =
"Force Power"` is false on the code: `POWER` is not one of the qualifier
words `TYPE`/`SLOT`/`BONUS`, so the prefix is the single segment `FORCE`
and the category is `"Force"`. -/
theorem c1_counterexample :
    infer_category_from_name "FORCE_POWER_HEAL" = "Force" ∧
    ("Force" : String) ≠ "Force Power" := by decide

/-- C1 (amended): the worked examples as the code computes them:
`TRUE ↦ Basic`, `FORCE_POWER_HEAL ↦ Force` (single-segment prefix, the
two-segment qualifier rule does not fire), `GetCreatureHasItem ↦ Object`. -/
theorem c1_amended_examples :
    infer_category_from_name "TRUE" = "Basic" ∧
    infer_category_from_name "FORCE_POWER_HEAL" = "Force" ∧
    infer_category_from_function_name "GetCreatureHasItem" = "Object" := by decide

/-! ## Claim C4: totality and non-emptiness of the categorizer -/

/-- C4 counterexample: the categorizer is not non-empty on every constant
name: a name whose first underscore segment is empty yields the empty
category label. -/
theorem c4_counterexample : infer_category_from_name "_X" = "" := by decide

/-- An `if` between two non-empty strings is non-empty. -/
theorem ite_str_ne (c : Prop) [inst : Decidable c] (a b : String) (ha : a ≠ "") (hb : b ≠ "") :
    (if c then a else b) ≠ "" := by
  split
  · exact ha
  · exact hb

/-- C4 (amended): both categorizers are total, deterministic, pure Lean
functions; the function categorizer always returns a non-empty label
(default `"General"`), and the constant categorizer returns `"Other"` for
every non-special name without an underscore — but a constant name with an
underscore can map to the empty string (see the counterexample). -/
theorem c4_amended_totality :
    (∀ s : String, infer_category_from_function_name s ≠ "") ∧
    (∀ s : String, s ≠ "TRUE" → s ≠ "FALSE" → s ≠ "PI" →
      (strSplitChar s '_').length ≤ 1 → infer_category_from_name s = "Other") := by
  constructor
  · intro s
    unfold infer_category_from_function_name
    repeat' (first | apply ite_str_ne | decide)
  · intro s h1 h2 h3 h4
    simp only [infer_category_from_name, h1, h2, h3, if_false]
    rw [if_neg (by omega : ¬((strSplitChar s '_').length > 1))]
    simp

/-- C4 witness: the amended theorem applied at `"Foo"` (function side) and
`"XYZ"` (constant side). -/
theorem c4_witness :
    infer_category_from_function_name "Foo" ≠ "" ∧
    infer_category_from_name "XYZ" = "Other" :=
  ⟨c4_amended_totality.1 "Foo",
   c4_amended_totality.2 "XYZ" (by decide) (by decide) (by decide) (by decide)⟩

/-! ## Claim C3: the description-argument rule of function extraction -/

/-- C3 counterexample: the length test uses the raw literal, not its
trimmed form.  `"hello      "` has raw length 11 (passes the `> 10` gate)
but trims to `"hello"` (length 5), and the extracted description becomes
`"hello"` rather than the claimed placeholder `"F function"`. -/
theorem c3_counterexample :
    extract_script_function (.call (.name "ScriptFunction")
      [.attribute (.name "DataType") "VOID", .constant (.str "F"), .list [],
       .constant (.str "hello      ")]) =
      .ok (some { returnType := "void", name := "F", parameters := [],
                  description := "hello", category := "General" }) ∧
    ("hello      " : String).length = 11 ∧
    (normalizeDesc "hello      ").length ≤ 10 ∧
    ("hello" : String) ≠ "F function" := by decide

/-- C3 (amended): for a function shape with a string-literal fourth
argument, the description is the normalized literal exactly when the RAW
literal length exceeds 10 characters (no trimming before the length test);
otherwise it stays the synthesized `"<name> function"` placeholder. -/
theorem c3_amended_description (rt nm d : String)
    (hrt : strLower rt ≠ "") (hnm : nm ≠ "") :
    extract_script_function (.call (.name "ScriptFunction")
      [.attribute (.name "DataType") rt, .constant (.str nm), .list [], .constant (.str d)]) =
    .ok (some { returnType := strLower rt, name := nm, parameters := [],
                description := if d.length > 10 then normalizeDesc d else nm ++ " function",
                category := infer_category_from_function_name nm }) := by
  simp only [extract_script_function, dataTypeTag, constantArg, pyTruthy, pyStr,
             List.get?, List.filterMap]
  simp [hrt, hnm]

/-- C3 witness: the amended theorem at a concrete long description. -/
theorem c3_witness :
    extract_script_function (.call (.name "ScriptFunction")
      [.attribute (.name "DataType") "VOID", .constant (.str "F"), .list [],
       .constant (.str "does a thing carefully")]) =
    .ok (some { returnType := strLower "VOID", name := "F", parameters := [],
                description := if ("does a thing carefully" : String).length > 10
                               then normalizeDesc "does a thing carefully"
                               else "F" ++ " function",
                category := infer_category_from_function_name "F" }) :=
  c3_amended_description "VOID" "F" "does a thing carefully" (by decide) (by decide)

/-! ## Claim C6: the defaultValue rule of parameter extraction -/

/-- C6 counterexample: a third argument that is the empty-string literal —
present, a literal, and not the `None` sentinel — still yields NO
`defaultValue` (its stringification is falsy, and the emission guard
`if default_value:` drops it), contradicting the claim. -/
theorem c6_counterexample :
    extract_param (.call (.name "ScriptParam")
      [.attribute (.name "DataType") "STRING", .constant (.str "p"), .constant (.str "")]) =
      some { type := "string", name := .str "p", defaultValue := Option.none } ∧
    PyVal.str "" ≠ PyVal.none := by decide

/-- C6 (amended): for a parameter shape with a literal third argument, the
`defaultValue` is the stringification of the literal exactly when the
literal is not `None` AND its stringification is non-empty; the
empty-string literal (stringifying to `""`) is also dropped. -/
theorem c6_amended_default (t nm : String) (v : PyVal)
    (ht : strLower t ≠ "") (hn : nm ≠ "") :
    extract_param (.call (.name "ScriptParam")
      [.attribute (.name "DataType") t, .constant (.str nm), .constant v]) =
    some { type := strLower t, name := .str nm,
           defaultValue := if v ≠ PyVal.none ∧ pyStr v ≠ ""
                           then some (pyStr v) else Option.none } := by
  cases v <;> simp [extract_param, dataTypeTag, constantArg, pyTruthy, pyStr, ht, hn]

/-- C6 witness: the amended theorem at the literal `3`. -/
theorem c6_witness :
    extract_param (.call (.name "ScriptParam")
      [.attribute (.name "DataType") "INT", .constant (.str "p"), .constant (.int 3)]) =
    some { type := strLower "INT", name := .str "p",
           defaultValue := if PyVal.int 3 ≠ PyVal.none ∧ pyStr (.int 3) ≠ ""
                           then some (pyStr (.int 3)) else Option.none } :=
  c6_amended_default "INT" "p" (.int 3) (by decide) (by decide)

/-! ## Claim C9: determinism of the pipeline -/

/-- C9: the pipeline is a pure function of the parsed source: two runs on
identical input produce identical output (no hidden state in the
embedding; extraction and emission are deterministic Lean functions). -/
theorem c9_deterministic (m₁ m₂ : List Stmt) (h : m₁ = m₂) :
    run_pipeline m₁ = run_pipeline m₂ := by rw [h]

/-- C9 witness: two runs on the empty module coincide. -/
theorem c9_witness : run_pipeline [] = run_pipeline [] := c9_deterministic [] [] rfl

/-! ## Claim C10: the get/set/is/has gate hides the later keyword branches -/

/-- C10: a function name starting with get/set/is/has (on its lower-cased
form) whose lower-cased form contains no keyword of the seven gated sets is
categorized "General": the later Action/Effect/Combat/…/Force branches are
unreachable for such names. -/
theorem c10_gated_general (name : String)
    (h0 : (strStartsWith (strLower name) "get" || strStartsWith (strLower name) "set" ||
           strStartsWith (strLower name) "is" || strStartsWith (strLower name) "has") = true)
    (h1 : anyKw (strLower name) ["pc", "player", "character", "object", "creature"] = false)
    (h2 : anyKw (strLower name) ["party", "npc", "available"] = false)
    (h3 : anyKw (strLower name) ["item", "inventory", "equipped"] = false)
    (h4 : anyKw (strLower name) ["area", "location", "position", "facing"] = false)
    (h5 : anyKw (strLower name) ["ability", "skill", "level", "class"] = false)
    (h6 : anyKw (strLower name) ["global", "local"] = false)
    (h7 : anyKw (strLower name) ["time", "day", "hour", "module"] = false) :
    infer_category_from_function_name name = "General" := by
  simp only [infer_category_from_function_name, h0, h1, h2, h3, h4, h5, h6, h7,
             if_true, if_false]
  simp

/-- C10 witness: `"GetDamage"` (which contains the Combat keyword
`damage`) is categorized "General", not "Combat". -/
theorem c10_witness : infer_category_from_function_name "GetDamage" = "General" :=
  c10_gated_general "GetDamage" (by decide) (by decide) (by decide) (by decide)
    (by decide) (by decide) (by decide) (by decide)

/-! ## Claim C7: extraction never throws -/

/-- The statements the walker reacts to at all: a single-target `Name`
assignment whose bound name is one of the four recognized identifiers. -/
def isTargetAssign : Stmt → Bool
| .assign [.name id] _ => target_vars.contains id
| _ => false

/-- A statement that is not a recognized binding leaves the accumulated
definitions untouched and raises nothing. -/
theorem processStmt_skip (d : Definitions) (s : Stmt) (h : isTargetAssign s = false) :
    processStmt d s = .ok d := by
  unfold processStmt
  split
  · rename_i id value
    simp only [isTargetAssign] at h
    rw [if_neg (show ¬(target_vars.contains id = true) by simpa using h)]
    rfl
  · rfl

/-- Folding the walker over statements none of which is a recognized
binding returns the accumulator unchanged. -/
theorem extract_skip_all (m : List Stmt) (h : ∀ s ∈ m, isTargetAssign s = false) :
    ∀ d, List.foldlM processStmt d m = .ok d := by
  induction m with
  | nil => intro d; rfl
  | cons a as ih =>
    intro d
    have ha : processStmt d a = .ok d := processStmt_skip d a (h a (by simp))
    rw [List.foldlM_cons, ha]
    exact ih (fun s hs => h s (List.mem_cons_of_mem a hs)) d

/-- C7 counterexample: extraction CAN raise on a parseable module: a
`ScriptConstant` whose name argument is the truthy non-string literal `5`
reaches `infer_category_from_name`, which raises `AttributeError` (`5` has
no `.split`), aborting the whole extraction. -/
theorem c7_counterexample :
    extract_definitions_from_file
      [.assign [.name "KOTOR_CONSTANTS"]
        (.list [.call (.name "ScriptConstant")
          [.attribute (.name "DataType") "INT", .constant (.int 5), .constant (.int 1)]])] =
    .error "AttributeError" := by decide

/-- C7 (amended): extraction does not throw, and yields four empty
sequences, on any module with no recognized binding assignment; it also
does not throw when the recognized bindings hold only well-formed but
irrelevant elements.  (It can throw for a truthy non-string literal name —
see the counterexample.) -/
theorem c7_amended_no_throw :
    (∀ m : List Stmt, (∀ s ∈ m, isTargetAssign s = false) →
      extract_definitions_from_file m = .ok Definitions.empty) ∧
    extract_definitions_from_file
      [.assign [.name "KOTOR_CONSTANTS"] (.list [.other, .name "x", .constant (.int 7)]),
       .assign [.name "KOTOR_FUNCTIONS"] (.list [.call (.name "Foo") [], .list []])] =
      .ok Definitions.empty :=
  ⟨fun m h => extract_skip_all m h Definitions.empty, by decide⟩

/-- C7 witness: the amended theorem at a concrete module with no
recognized binding. -/
theorem c7_witness :
    extract_definitions_from_file
      [Stmt.other, .assign [.name "NOT_TRACKED"] (.list [])] = .ok Definitions.empty :=
  c7_amended_no_throw.1 [Stmt.other, .assign [.name "NOT_TRACKED"] (.list [])] (by decide)

/-! ## Claim C8: shape-gating of malformed list elements -/

/-- The one-step unfolding of the constant-list loop. -/
theorem extractConstList_cons (x : Expr) (xs : List Expr) :
    extractConstList (x :: xs) = (do
      let c ← extract_script_constant x
      let rest ← extractConstList xs
      match c with
      | some r => Except.ok (r :: rest)
      | Option.none => Except.ok rest) := rfl

/-- C8 counterexample: a list element whose name argument is the truthy
non-string literal `True` does not merely yield no record — it raises,
aborting extraction, so the valid `GOOD_ONE` element of the same list is
lost as well. -/
theorem c8_counterexample :
    extract_script_constant
      (.call (.name "ScriptConstant")
        [.attribute (.name "DataType") "INT", .constant (.str "GOOD_ONE"), .constant (.int 1)]) =
      .ok (some { type := "int", name := "GOOD_ONE", value := .int 1, category := "Good" }) ∧
    extract_definitions_from_file
      [.assign [.name "KOTOR_CONSTANTS"]
        (.list [.call (.name "ScriptConstant")
          [.attribute (.name "DataType") "INT", .constant (.str "GOOD_ONE"), .constant (.int 1)],
          .call (.name "ScriptConstant")
          [.attribute (.name "DataType") "INT", .constant (.bool true), .constant (.int 2)]])] =
      .error "AttributeError" := by decide

/-- C8 (amended): an element the structural guards reject (`.ok none`,
e.g. missing arguments or an untruthy name) yields no record while every
other element of the list is still extracted, and every record that IS
produced has its required fields populated (non-empty type tag, non-empty
name, non-`None` value).  An element with a truthy non-string literal name
instead aborts the whole extraction — see the counterexample. -/
theorem c8_amended_shape_gating :
    (∀ (es1 es2 : List Expr) (e : Expr), extract_script_constant e = .ok Option.none →
       extractConstList (es1 ++ e :: es2) = extractConstList (es1 ++ es2)) ∧
    (∀ (e : Expr) (r : ConstantRecord), extract_script_constant e = .ok (some r) →
       r.type ≠ "" ∧ r.name ≠ "" ∧ r.value ≠ PyVal.none) := by
  constructor
  · intro es1 es2 e he
    induction es1 with
    | nil =>
      simp only [List.nil_append, extractConstList_cons, he]
      show (extractConstList es2 >>= fun rest => pure rest) = extractConstList es2
      exact bind_pure (extractConstList es2)
    | cons a as ih =>
      rw [List.cons_append, List.cons_append, extractConstList_cons a (as ++ e :: es2),
          extractConstList_cons a (as ++ es2), ih]
  · intro e r h
    unfold extract_script_constant at h
    repeat' split at h
    all_goals simp_all [pyTruthy]
    all_goals (repeat' split at h)
    all_goals (first
      | (injection h with h1; injection h1 with h2; subst h2; simp_all)
      | simp_all)

/-- C8 witness: the amended theorem at a concrete two-element list whose
second element misses its arguments, and at the valid first element. -/
theorem c8_witness :
    extractConstList
      [.call (.name "ScriptConstant")
        [.attribute (.name "DataType") "INT", .constant (.str "A_B"), .constant (.int 1)],
       .call (.name "ScriptConstant") [.attribute (.name "DataType") "INT"]] =
      extractConstList
        [.call (.name "ScriptConstant")
          [.attribute (.name "DataType") "INT", .constant (.str "A_B"), .constant (.int 1)]] ∧
    (({ type := "int", name := "A_B", value := .int 1,
        category := infer_category_from_name "A_B" } : ConstantRecord).type ≠ "" ∧
     ({ type := "int", name := "A_B", value := .int 1,
        category := infer_category_from_name "A_B" } : ConstantRecord).name ≠ "" ∧
     ({ type := "int", name := "A_B", value := .int 1,
        category := infer_category_from_name "A_B" } : ConstantRecord).value ≠ PyVal.none) :=
  ⟨by
    have := c8_amended_shape_gating.1
      [.call (.name "ScriptConstant")
        [.attribute (.name "DataType") "INT", .constant (.str "A_B"), .constant (.int 1)]]
      []
      (.call (.name "ScriptConstant") [.attribute (.name "DataType") "INT"])
      (by decide)
    simpa using this,
   c8_amended_shape_gating.2
     (.call (.name "ScriptConstant")
       [.attribute (.name "DataType") "INT", .constant (.str "A_B"), .constant (.int 1)])
     { type := "int", name := "A_B", value := .int 1,
       category := infer_category_from_name "A_B" }
     (by decide)⟩

/-! ## Claim C2: the end-to-end scenario -/

/-- The module of the end-to-end scenario:
`KOTOR_CONSTANTS = [ScriptConstant(DataType.INT, "TRUE", 1)]` and
`KOTOR_FUNCTIONS = [ScriptFunction(DataType.VOID, "ActionDoNothing", [])]`. -/
def c2_module : List Stmt :=
  [.assign [.name "KOTOR_CONSTANTS"]
     (.list [.call (.name "ScriptConstant")
       [.attribute (.name "DataType") "INT", .constant (.str "TRUE"), .constant (.int 1)]]),
   .assign [.name "KOTOR_FUNCTIONS"]
     (.list [.call (.name "ScriptFunction")
       [.attribute (.name "DataType") "VOID", .constant (.str "ActionDoNothing"), .list []]])]

/-- The extraction result of the C2 module. -/
def c2_defs : Definitions :=
  { kotor_constants := [{ type := "int", name := "TRUE", value := .int 1, category := "Basic" }],
    tsl_constants := [],
    kotor_functions := [{ returnType := "void", name := "ActionDoNothing", parameters := [],
                          description := "ActionDoNothing function", category := "Action" }],
    tsl_functions := [] }

/-- C2: the emitted output for the scenario module contains the constants
entry with name `TRUE`, type `int`, value `1`, the table description
`Boolean true value`, category `Basic`, and the functions entry with name
`ActionDoNothing`, return type `void`, empty parameters, category
`Action`. -/
theorem c2_end_to_end :
    ∃ pre mid post,
      run_pipeline c2_module =
        .ok (pre ++
          "  \x7b name: \"TRUE\", type: \"int\", value: 1, description: \"Boolean true value\", category: \"Basic\" \x7d" ++
          mid ++
          "  \x7b name: \"ActionDoNothing\", returnType: \"void\", parameters: [], description: \"ActionDoNothing function\", category: \"Action\" \x7d" ++
          post) := by
  refine ⟨TS_HEADER ++ "export const KOTOR_CONSTANTS: NWScriptConstant[] = [\n",
          "\n];\n\nexport const TSL_CONSTANTS: NWScriptConstant[] = [\n];\n\nexport const KOTOR_FUNCTIONS: NWScriptFunction[] = [\n",
          "\n];\n\nexport const TSL_FUNCTIONS: NWScriptFunction[] = [\n];\n\n", ?_⟩
  have h1 : run_pipeline c2_module = .ok (generate_typescript_definitions c2_defs) := by
    unfold run_pipeline
    have hx : extract_definitions_from_file c2_module = .ok c2_defs := by rfl
    rw [hx]
    rfl
  have h2 : ts_body c2_defs =
      "export const KOTOR_CONSTANTS: NWScriptConstant[] = [\n" ++
      ("  \x7b name: \"TRUE\", type: \"int\", value: 1, description: \"Boolean true value\", category: \"Basic\" \x7d" ++
       ("\n];\n\nexport const TSL_CONSTANTS: NWScriptConstant[] = [\n];\n\nexport const KOTOR_FUNCTIONS: NWScriptFunction[] = [\n" ++
        ("  \x7b name: \"ActionDoNothing\", returnType: \"void\", parameters: [], description: \"ActionDoNothing function\", category: \"Action\" \x7d" ++
         "\n];\n\nexport const TSL_FUNCTIONS: NWScriptFunction[] = [\n];\n\n"))) := by rfl
  have h3 : generate_typescript_definitions c2_defs = TS_HEADER ++ ts_body c2_defs := rfl
  rw [h1, h3, h2]
  simp only [String.append_assoc]

/-! ## Claim C5: quote escaping of emitted string fields -/

/-- The module whose constant name contains an embedded double quote. -/
def c5_const_module : List Stmt :=
  [.assign [.name "KOTOR_CONSTANTS"]
     (.list [.call (.name "ScriptConstant")
       [.attribute (.name "DataType") "STRING", .constant (.str "A\"B"), .constant (.str "v")]])]

/-- The extraction result of the quote-name module. -/
def c5_const_defs : Definitions :=
  { kotor_constants := [{ type := "string", name := "A\"B", value := .str "v", category := "Other" }],
    tsl_constants := [], kotor_functions := [], tsl_functions := [] }

/-- C5 counterexample: a constant name with an embedded double quote is
emitted verbatim: the rendered entry line contains `name: "A"B"` and no
backslash at all, so the name field is NOT escaped. -/
theorem c5_counterexample :
    (∃ pre post,
      run_pipeline c5_const_module =
        .ok (pre ++
          "  \x7b name: \"A\"B\", type: \"string\", value: \"v\", description: \"kotor constant\", category: \"Other\" \x7d" ++
          post)) ∧
    strContains "  \x7b name: \"A\"B\", type: \"string\", value: \"v\", description: \"kotor constant\", category: \"Other\" \x7d" "\\" = false ∧
    strContains "  \x7b name: \"A\"B\", type: \"string\", value: \"v\", description: \"kotor constant\", category: \"Other\" \x7d" "\"A\"B\"" = true := by
  refine ⟨⟨TS_HEADER ++ "export const KOTOR_CONSTANTS: NWScriptConstant[] = [\n",
          "\n];\n\nexport const TSL_CONSTANTS: NWScriptConstant[] = [\n];\n\nexport const KOTOR_FUNCTIONS: NWScriptFunction[] = [\n];\n\nexport const TSL_FUNCTIONS: NWScriptFunction[] = [\n];\n\n", ?_⟩,
        by decide, by decide⟩
  have h1 : run_pipeline c5_const_module = .ok (generate_typescript_definitions c5_const_defs) := by
    unfold run_pipeline
    have hx : extract_definitions_from_file c5_const_module = .ok c5_const_defs := by rfl
    rw [hx]
    rfl
  have h2 : ts_body c5_const_defs =
      "export const KOTOR_CONSTANTS: NWScriptConstant[] = [\n" ++
      ("  \x7b name: \"A\"B\", type: \"string\", value: \"v\", description: \"kotor constant\", category: \"Other\" \x7d" ++
       "\n];\n\nexport const TSL_CONSTANTS: NWScriptConstant[] = [\n];\n\nexport const KOTOR_FUNCTIONS: NWScriptFunction[] = [\n];\n\nexport const TSL_FUNCTIONS: NWScriptFunction[] = [\n];\n\n") := by rfl
  have h3 : generate_typescript_definitions c5_const_defs = TS_HEADER ++ ts_body c5_const_defs := rfl
  rw [h1, h3, h2]
  simp only [String.append_assoc]

/-- The module pairing the quote-name constant with a function whose long
description contains embedded double quotes. -/
def c5_mixed_module : List Stmt :=
  [.assign [.name "KOTOR_CONSTANTS"]
     (.list [.call (.name "ScriptConstant")
       [.attribute (.name "DataType") "STRING", .constant (.str "A\"B"), .constant (.str "v")]]),
   .assign [.name "KOTOR_FUNCTIONS"]
     (.list [.call (.name "ScriptFunction")
       [.attribute (.name "DataType") "VOID", .constant (.str "F"), .list [],
        .constant (.str "say \"hi\" everyone")]])]

/-- The extraction result of the mixed module. -/
def c5_mixed_defs : Definitions :=
  { kotor_constants := [{ type := "string", name := "A\"B", value := .str "v", category := "Other" }],
    tsl_constants := [],
    kotor_functions := [{ returnType := "void", name := "F", parameters := [],
                          description := "say \"hi\" everyone", category := "General" }],
    tsl_functions := [] }

/-- C5 (amended): only the overriding extracted function description is
escaped for embedded double quotes (`"` becomes `\"`); every other string
field — here the constant name — is emitted verbatim, unescaped. -/
theorem c5_amended_escaping :
    (∃ pre mid post,
      run_pipeline c5_mixed_module =
        .ok (pre ++
          "  \x7b name: \"A\"B\", type: \"string\", value: \"v\", description: \"kotor constant\", category: \"Other\" \x7d" ++
          mid ++
          "  \x7b name: \"F\", returnType: \"void\", parameters: [], description: \"say \\\"hi\\\" everyone\", category: \"General\" \x7d" ++
          post)) ∧
    strContains "  \x7b name: \"F\", returnType: \"void\", parameters: [], description: \"say \\\"hi\\\" everyone\", category: \"General\" \x7d" "\\\"" = true ∧
    strContains "  \x7b name: \"A\"B\", type: \"string\", value: \"v\", description: \"kotor constant\", category: \"Other\" \x7d" "\\" = false := by
  refine ⟨⟨TS_HEADER ++ "export const KOTOR_CONSTANTS: NWScriptConstant[] = [\n",
          "\n];\n\nexport const TSL_CONSTANTS: NWScriptConstant[] = [\n];\n\nexport const KOTOR_FUNCTIONS: NWScriptFunction[] = [\n",
          "\n];\n\nexport const TSL_FUNCTIONS: NWScriptFunction[] = [\n];\n\n", ?_⟩,
        by decide, by decide⟩
  have h1 : run_pipeline c5_mixed_module = .ok (generate_typescript_definitions c5_mixed_defs) := by
    unfold run_pipeline
    have hx : extract_definitions_from_file c5_mixed_module = .ok c5_mixed_defs := by rfl
    rw [hx]
    rfl
  have h2 : ts_body c5_mixed_defs =
      "export const KOTOR_CONSTANTS: NWScriptConstant[] = [\n" ++
      ("  \x7b name: \"A\"B\", type: \"string\", value: \"v\", description: \"kotor constant\", category: \"Other\" \x7d" ++
       ("\n];\n\nexport const TSL_CONSTANTS: NWScriptConstant[] = [\n];\n\nexport const KOTOR_FUNCTIONS: NWScriptFunction[] = [\n" ++
        ("  \x7b name: \"F\", returnType: \"void\", parameters: [], description: \"say \\\"hi\\\" everyone\", category: \"General\" \x7d" ++
         "\n];\n\nexport const TSL_FUNCTIONS: NWScriptFunction[] = [\n];\n\n"))) := by rfl
  have h3 : generate_typescript_definitions c5_mixed_defs = TS_HEADER ++ ts_body c5_mixed_defs := rfl
  rw [h1, h3, h2]
  simp only [String.append_assoc]
